import Mathlib

/-!
Verification of the authentication subsystem of the petites-annonces-ci
backend (`backend/src/services/authService.ts`,
`backend/src/middleware/authMiddleware.ts`,
`backend/src/controllers/authController.ts`).

The TypeScript code is shallowly embedded: strings are lists of characters,
wall-clock time is a natural number of milliseconds, the Prisma-backed
relational store is an explicit record of lists, JWTs are an inductive type
recording exactly the data that signing puts into a token, and every
stateful operation threads the store explicitly.  Fire-and-forget e-mail /
SMS sends are modelled as a list of emitted notification events.
-/

namespace PetitesAnnonces

/-- JavaScript strings, modelled as lists of characters. -/
abbrev Str := List Char

/-- The character class `\s` of JavaScript regular expressions
(whitespace, as used by `replace(/\s+/g, '')` and `trim()`). -/
def isJsWs (c : Char) : Bool :=
  c == ' ' || c == '\t' || c == '\n' || c == '\r' ||
  c.toNat == 0x0B || c.toNat == 0x0C || c.toNat == 0xA0 ||
  c.toNat == 0x1680 || (0x2000 ≤ c.toNat && c.toNat ≤ 0x200A) ||
  c.toNat == 0x2028 || c.toNat == 0x2029 || c.toNat == 0x202F ||
  c.toNat == 0x205F || c.toNat == 0x3000 || c.toNat == 0xFEFF

/-- `s.replace(/\s+/g, '')`: removing every maximal whitespace run is the
same as removing every whitespace character. -/
def stripWs (s : Str) : Str := s.filter (fun c => !(isJsWs c))

/-- `s.trim()`. -/
def jsTrim (s : Str) : Str :=
  ((s.dropWhile isJsWs).reverse.dropWhile isJsWs).reverse

/-- `s.toLowerCase()` (ASCII-faithful; exotic case mappings are out of
scope for the data handled here). -/
def jsToLower (s : Str) : Str := s.map Char.toLower

/-- `s.toUpperCase()` (ASCII-faithful). -/
def jsToUpper (s : Str) : Str := s.map Char.toUpper

/-- `s.startsWith(p)`. -/
def hasPre : Str → Str → Bool
  | [], _ => true
  | _ :: _, [] => false
  | p :: ps, c :: cs => p == c && hasPre ps cs

-- ==============================================
-- CONFIGURATION (authService.ts / authMiddleware.ts)
-- ==============================================

/-- `JWT_CONFIG.SECRET` (default value; the env override is deployment
configuration, identical in both source files). -/
def SECRET : Str := "your-super-secret-key-change-in-production".data

/-- `JWT_CONFIG.REFRESH_SECRET` (default value). -/
def REFRESH_SECRET : Str := "refresh-secret-key".data

/-- `JWT_CONFIG.ISSUER`. -/
def ISSUER : Str := "petites-annonces-ci".data

/-- `JWT_CONFIG.AUDIENCE`. -/
def AUDIENCE : Str := "petites-annonces-ci-users".data

def MS_PER_MINUTE : Nat := 60 * 1000

def MS_PER_DAY : Nat := 24 * 60 * 60 * 1000

/-- `JWT_CONFIG.ACCESS_TOKEN_EXPIRES = '15m'`, in milliseconds. -/
def ACCESS_TOKEN_EXPIRES_MS : Nat := 15 * MS_PER_MINUTE

/-- `JWT_CONFIG.REFRESH_TOKEN_EXPIRES = '7d'`, in milliseconds. -/
def REFRESH_TOKEN_EXPIRES_MS : Nat := 7 * MS_PER_DAY

/-- `JWT_CONFIG.VERIFICATION_TOKEN_EXPIRES = '24h'`, in milliseconds.
Note: never consumed anywhere in the source. -/
def VERIFICATION_TOKEN_EXPIRES_MS : Nat := 24 * 60 * MS_PER_MINUTE

/-- `JWT_CONFIG.RESET_TOKEN_EXPIRES = '1h'`, in milliseconds. -/
def RESET_TOKEN_EXPIRES_MS : Nat := 60 * MS_PER_MINUTE

/-- `SECURITY_CONFIG.MAX_LOGIN_ATTEMPTS`. -/
def MAX_LOGIN_ATTEMPTS : Nat := 5

/-- `SECURITY_CONFIG.LOCKOUT_TIME = 15 * 60 * 1000` (15 minutes). -/
def LOCKOUT_TIME : Nat := 15 * 60 * 1000

/-- `SECURITY_CONFIG.PASSWORD_MIN_LENGTH`. -/
def PASSWORD_MIN_LENGTH : Nat := 6

/-- `SECURITY_CONFIG.PASSWORD_MAX_LENGTH`. -/
def PASSWORD_MAX_LENGTH : Nat := 128

/-- `CACHE_DURATION = 5 * 60 * 1000` (authMiddleware.ts). -/
def CACHE_DURATION : Nat := 5 * 60 * 1000

/-- `process.env.NODE_ENV === 'production'`: modelled as a development
deployment (the extra password-complexity checks are off). -/
def IS_PRODUCTION : Bool := false

-- ==============================================
-- TOKENS (jsonwebtoken, as used by the source)
-- ==============================================

/-- The purpose tag `type` carried in every token payload. -/
inductive TokenType
  | access
  | refresh
  | verification
  | reset
deriving DecidableEq, Repr

/-- The claims object passed to `jwt.sign` plus the `iat`/`exp` stamps the
library adds.  User ids are modelled as naturals. -/
structure TokenPayload where
  userId : Nat
  email : Str
  type : TokenType
  iat : Nat
  exp : Nat
deriving DecidableEq, Repr

/-- A bearer-token string.  A well-formed JWT is fully determined by its
payload, the secret it was signed with, its `iss`/`aud` claims, and its
unique `jti`; any other string is `malformed`. -/
inductive Token
  | signed (payload : TokenPayload) (secret : Str) (iss aud : Str) (jti : Nat)
  | malformed (raw : Str)
deriving DecidableEq, Repr

/-- `true` when the token is a well-formed JWT whose `jti` is below `n`
(i.e. it was minted before the freshness counter reached `n`). -/
def Token.jtiLt (t : Token) (n : Nat) : Bool :=
  match t with
  | .signed _ _ _ _ j => j < n
  | .malformed _ => true

/-- Failures of `jwt.verify`: `JsonWebTokenError` (malformed or wrong
signature or bad `iss`/`aud`) and `TokenExpiredError`. -/
inductive JwtError
  | invalidToken
  | tokenExpired
deriving DecidableEq, Repr

/-- `jwt.verify(token, secret, options?)`.  Following the library, the
signature is checked first, then expiry, then (only when the caller passed
the options, as the middleware does) issuer and audience.  A token is
expired as soon as `now` reaches `exp`. -/
def jwtVerify (t : Token) (secret : Str) (checkIssAud : Bool) (now : Nat) :
    Except JwtError TokenPayload :=
  match t with
  | .malformed _ => .error .invalidToken
  | .signed p sec iss aud _ =>
    if sec ≠ secret then .error .invalidToken
    else if p.exp ≤ now then .error .tokenExpired
    else if checkIssAud && (iss ≠ ISSUER || aud ≠ AUDIENCE) then .error .invalidToken
    else .ok p

/-- The secret `AuthService.generateToken` selects for a purpose. -/
def tokenSecret (type : TokenType) : Str :=
  if type = .refresh then REFRESH_SECRET else SECRET

/-- `AuthService.generateToken(userId, email, type, expiresIn)`.
`expiresInMs` is the parsed TTL in milliseconds and `jti` stands for the
fresh `crypto.randomUUID()`. -/
def generateToken (userId : Nat) (email : Str) (type : TokenType)
    (expiresInMs : Nat) (now : Nat) (jti : Nat) : Token :=
  .signed { userId, email, type, iat := now, exp := now + expiresInMs }
    (tokenSecret type) ISSUER AUDIENCE jti

-- ==============================================
-- DATA MODEL (prisma schema, shared/src/types)
-- ==============================================

inductive UserStatus
  | ACTIVE
  | SUSPENDED
  | DELETED
  | PENDING_VERIFICATION
deriving DecidableEq, Repr

/-- A row of the `users` table (the columns the auth subsystem touches). -/
structure UserRec where
  id : Nat
  email : Str
  phone : Str
  password : Str
  firstName : Str
  lastName : Str
  avatar : Option Str
  isProfessional : Bool
  companyName : Option Str
  region : Option Str
  commune : Option Str
  emailVerified : Bool
  phoneVerified : Bool
  status : UserStatus
  loginAttempts : Nat
  blockedUntil : Option Nat
  lastLoginAt : Option Nat
  createdAt : Nat
  updatedAt : Nat
deriving DecidableEq, Repr

/-- The user shape returned to callers: every column except `password`
(`register` selects these columns explicitly; `login` spreads the row and
drops `password`). -/
structure PublicUser where
  id : Nat
  email : Str
  phone : Str
  firstName : Str
  lastName : Str
  avatar : Option Str
  isProfessional : Bool
  companyName : Option Str
  region : Option Str
  commune : Option Str
  emailVerified : Bool
  phoneVerified : Bool
  status : UserStatus
  loginAttempts : Nat
  blockedUntil : Option Nat
  lastLoginAt : Option Nat
  createdAt : Nat
  updatedAt : Nat
deriving DecidableEq, Repr

def UserRec.toPublic (u : UserRec) : PublicUser :=
  { id := u.id, email := u.email, phone := u.phone,
    firstName := u.firstName, lastName := u.lastName, avatar := u.avatar,
    isProfessional := u.isProfessional, companyName := u.companyName,
    region := u.region, commune := u.commune,
    emailVerified := u.emailVerified, phoneVerified := u.phoneVerified,
    status := u.status, loginAttempts := u.loginAttempts,
    blockedUntil := u.blockedUntil, lastLoginAt := u.lastLoginAt,
    createdAt := u.createdAt, updatedAt := u.updatedAt }

/-- A row of the `refresh_tokens` table (the spec's Revocation Record). -/
structure RefreshTokenRec where
  id : Nat
  token : Token
  userId : Nat
  expiresAt : Nat
deriving DecidableEq, Repr

/-- A row of the `log_activites` table (only the parts the claims can
observe). -/
structure LogEntry where
  action : Str
  userId : Nat
deriving DecidableEq, Repr

/-- A fire-and-forget message handed to the notification collaborator.
`verificationEmail` mirrors `sendVerificationEmail(email, firstName)` —
the source hands over no token — and `passwordResetEmail` mirrors
`sendPasswordResetEmail(email, firstName, token)`. -/
inductive Notif
  | verificationEmail (email firstName : Str)
  | passwordResetEmail (email firstName : Str) (token : Token)
deriving DecidableEq, Repr

/-- The persistent store plus the freshness sources (`cuid` user ids,
autoincrement refresh-token row ids, `crypto.randomUUID()` jtis), each
modelled as a counter. -/
structure DB where
  users : List UserRec
  refreshTokens : List RefreshTokenRec
  logs : List LogEntry
  nextUserId : Nat
  nextTokenRecId : Nat
  nextJti : Nat
deriving Repr

/-- Well-formedness facts the relational store guarantees: primary keys
and the unique `token` column are duplicate-free, and the freshness
counters dominate every id already allocated. -/
def DB.wf (db : DB) : Prop :=
  (db.users.map (·.id)).Nodup ∧
  (db.refreshTokens.map (·.id)).Nodup ∧
  (db.refreshTokens.map (·.token)).Nodup ∧
  (∀ r ∈ db.refreshTokens, r.token.jtiLt db.nextJti = true) ∧
  (∀ r ∈ db.refreshTokens, r.id < db.nextTokenRecId) ∧
  (∀ u ∈ db.users, u.id < db.nextUserId)

instance (db : DB) : Decidable db.wf := by
  unfold DB.wf; infer_instance

/-- Decidable equality of `Except` results (needed to evaluate the
embedded operations on concrete inputs). -/
instance {ε α : Type _} [DecidableEq ε] [DecidableEq α] :
    DecidableEq (Except ε α) := fun a b =>
  match a, b with
  | .ok x, .ok y =>
    if h : x = y then isTrue (by rw [h]) else isFalse (by simp [h])
  | .error x, .error y =>
    if h : x = y then isTrue (by rw [h]) else isFalse (by simp [h])
  | .ok _, .error _ => isFalse (by simp)
  | .error _, .ok _ => isFalse (by simp)

-- ==============================================
-- bcrypt (bcryptjs)
-- ==============================================

/-- `bcrypt.hash(password, 12)`: modelled as an injective tagging of the
plaintext; the only property the code relies on is that `compare`
recognises exactly the hashed password. -/
def bcryptHash (password : Str) : Str := '$' :: '2' :: 'b' :: '$' :: password

/-- `bcrypt.compare(password, hash)`. -/
def bcryptCompare (password hash : Str) : Bool := hash == bcryptHash password

-- ==============================================
-- ERROR MESSAGES (the strings thrown by authService.ts)
-- ==============================================

def msgBadCredentials : Str := "Email/téléphone ou mot de passe incorrect".data

def msgSuspended : Str := "Votre compte est suspendu. Contactez le support.".data

def msgDeleted : Str := "Ce compte n\x27existe plus.".data

def msgEmailExists : Str := "Un compte avec cet email existe déjà".data

def msgPhoneExists : Str := "Un compte avec ce numéro existe déjà".data

def msgInvalidEmail : Str := "Format d\x27email invalide".data

def msgInvalidPhone : Str := "Numéro de téléphone ivoirien invalide".data

def msgNameTooShort : Str :=
  "Nom et prénom doivent contenir au moins 2 caractères".data

def msgPasswordTooShort : Str :=
  "Mot de passe trop court (min 6 caractères)".data

def msgPasswordTooLong : Str :=
  "Mot de passe trop long (max 128 caractères)".data

def msgInvalidRefresh : Str := "Token de rafraîchissement invalide".data

/-- `Compte temporairement bloqué. Réessayez dans N minutes.` -/
def lockoutMessage (remainingMinutes : Nat) : Str :=
  "Compte temporairement bloqué. Réessayez dans ".data ++
  Nat.toDigits 10 remainingMinutes ++ " minutes.".data

/-- `Math.ceil((blockedUntil - now) / 60000)`. -/
def remainingMinutes (blockedUntil now : Nat) : Nat :=
  ((blockedUntil - now) + (MS_PER_MINUTE - 1)) / MS_PER_MINUTE

-- ==============================================
-- AUTHSERVICE: INPUT SHAPES
-- ==============================================

/-- `RegisterData`. -/
structure RegisterData where
  firstName : Str
  lastName : Str
  email : Str
  phone : Str
  password : Str
  isProfessional : Option Bool
  companyName : Option Str
  region : Option Str
  commune : Option Str
deriving DecidableEq, Repr

/-- `LoginData`. -/
structure LoginData where
  identifier : Str
  password : Str
  rememberMe : Option Bool
deriving DecidableEq, Repr

/-- `AuthTokens`. -/
structure AuthTokens where
  accessToken : Token
  refreshToken : Token
  expiresIn : Nat
deriving DecidableEq, Repr

/-- `AuthResult`. -/
structure AuthResult where
  user : PublicUser
  tokens : AuthTokens
deriving DecidableEq, Repr

-- ==============================================
-- AUTHSERVICE: PRIVATE HELPERS
-- ==============================================

/-- `AuthService.normalizePhoneNumber`. -/
def normalizePhoneNumber (phone : Str) : Str :=
  let n := stripWs phone
  if hasPre "00225".data n then "+225".data ++ n.drop 5
  else if hasPre "225".data n then "+225".data ++ n.drop 3
  else if !(hasPre "+225".data n) then "+225".data ++ n
  else n

/-- `AuthService.findUserByEmailOrPhone`: `findFirst` with an OR on the
lowercased-trimmed email and the normalized phone. -/
def findUserByEmailOrPhone (db : DB) (email phone : Str) : Option UserRec :=
  db.users.find? (fun u =>
    u.email == jsTrim (jsToLower email) || u.phone == normalizePhoneNumber phone)

/-- `prisma.user.findUnique({ where: { id } })`. -/
def findUserById (db : DB) (userId : Nat) : Option UserRec :=
  db.users.find? (fun u => u.id == userId)

/-- The email regex `/^[^\s@]+@[^\s@]+\.[^\s@]+$/`: one character allowed
in the class `[^\s@]`. -/
def emailChar (c : Char) : Bool := !(isJsWs c) && c ≠ '@'

/-- The post-`@` part matches `[^\s@]+\.[^\s@]+` (all characters are
class characters, and some dot has a nonempty run on both sides). -/
def emailDomainOk (d : Str) : Bool :=
  d.all emailChar &&
  (List.range d.length).any (fun i => decide (0 < i) &&
    decide (i + 1 < d.length) && d.getD i ' ' == '.')

/-- `emailRegex.test(email)`. -/
def emailOk (s : Str) : Bool :=
  let a := s.takeWhile (· ≠ '@')
  match s.dropWhile (· ≠ '@') with
  | '@' :: d => !(a.isEmpty) && a.all emailChar && emailDomainOk d
  | _ => false

/-- `[0-9]{8,10}` on a whole string. -/
def digits8to10 (s : Str) : Bool :=
  s.all Char.isDigit && 8 ≤ s.length && s.length ≤ 10

/-- `phoneRegex.test(phone)` for `/^(\+225|00225|225)?[0-9]{8,10}$/`
(the optional prefix alternatives are tried with backtracking). -/
def phoneOk (s : Str) : Bool :=
  (hasPre "+225".data s && digits8to10 (s.drop 4)) ||
  (hasPre "00225".data s && digits8to10 (s.drop 5)) ||
  (hasPre "225".data s && digits8to10 (s.drop 3)) ||
  digits8to10 s

/-- `AuthService.validatePassword` (the production-only complexity checks
are disabled, see `IS_PRODUCTION`). -/
def validatePassword (password : Str) : Except Str Unit :=
  if password.length < PASSWORD_MIN_LENGTH then .error msgPasswordTooShort
  else if PASSWORD_MAX_LENGTH < password.length then .error msgPasswordTooLong
  else .ok ()

/-- `AuthService.validateRegistrationData`. -/
def validateRegistrationData (data : RegisterData) : Except Str Unit :=
  if !(emailOk data.email) then .error msgInvalidEmail
  else if !(phoneOk data.phone) then .error msgInvalidPhone
  else
    match validatePassword data.password with
    | .error e => .error e
    | .ok () =>
      if data.firstName.length < 2 || data.lastName.length < 2 then
        .error msgNameTooShort
      else .ok ()

/-- The colour palette of `generateDefaultAvatar`. -/
def AVATAR_COLORS : List Str :=
  ["#FF6B6B".data, "#4ECDC4".data, "#45B7D1".data,
   "#96CEB4".data, "#FFEAA7".data, "#DDA0DD".data]

/-- `AuthService.generateDefaultAvatar` (names are nonempty once
validation has passed; an empty name is given a placeholder head). -/
def generateDefaultAvatar (firstName lastName : Str) : Str :=
  let initials := jsToUpper [firstName.headD '?', lastName.headD '?']
  let colorIndex :=
    ((firstName.headD '?').toNat + (lastName.headD '?').toNat) % AVATAR_COLORS.length
  let color := (AVATAR_COLORS.getD colorIndex []).drop 1
  "https://ui-avatars.com/api/?name=".data ++ initials ++
    "&background=".data ++ color ++ "&color=fff&size=200".data

/-- The character class kept by `baseSlug`: `[a-z0-9-]`. -/
def slugChar (c : Char) : Bool :=
  ('a' ≤ c && c ≤ 'z') || c.isDigit || c == '-'

/-- Substring containment (the Prisma `contains` filter). -/
def containsSeg (needle : Str) : Str → Bool
  | [] => needle.isEmpty
  | c :: cs => hasPre needle (c :: cs) || containsSeg needle cs

/-- `AuthService.slugExists`: counts users whose `firstName` contains the
first dash-segment of the slug. -/
def slugExists (db : DB) (slug : Str) : Bool :=
  db.users.any (fun u => containsSeg (slug.takeWhile (· ≠ '-')) u.firstName)

/-- The `while (await this.slugExists(slug))` loop of
`generateUniqueSlug`.  The source loop is unbounded (and can spin forever,
since `slugExists` ignores the counter suffix); it is modelled with
explicit fuel.  The resulting slug is computed and then discarded by
`register`, exactly as in the source. -/
def uniqueSlugLoop (db : DB) (baseSlug slug : Str) (counter : Nat) :
    Nat → Str
  | 0 => slug
  | fuel + 1 =>
    if slugExists db slug then
      uniqueSlugLoop db baseSlug (baseSlug ++ '-' :: Nat.toDigits 10 counter)
        (counter + 1) fuel
    else slug

/-- `AuthService.generateUniqueSlug`. -/
def generateUniqueSlug (db : DB) (firstName lastName : Str) : Str :=
  let baseSlug :=
    (jsToLower firstName ++ '-' :: jsToLower lastName).filter slugChar
  uniqueSlugLoop db baseSlug baseSlug 1 (db.users.length + 1)

/-- `AuthService.logActivity` (the best-effort log write). -/
def logActivity (db : DB) (action : Str) (userId : Nat) : DB :=
  { db with logs := db.logs ++ [{ action, userId }] }

/-- `AuthService.checkAccountLockout`: throws while `blockedUntil` lies in
the future, with the rounded-up remaining minutes in the message. -/
def checkAccountLockout (db : DB) (userId : Nat) (now : Nat) :
    Except Str Unit :=
  match findUserById db userId with
  | none => .ok ()
  | some u =>
    match u.blockedUntil with
    | none => .ok ()
    | some b =>
      if now < b then .error (lockoutMessage (remainingMinutes b now))
      else .ok ()

/-- `AuthService.handleFailedLogin`: bumps the attempt counter and, at the
threshold, stamps `blockedUntil = now + LOCKOUT_TIME`. -/
def handleFailedLogin (db : DB) (userId : Nat) (now : Nat) : DB :=
  let attempts :=
    (match findUserById db userId with
     | some u => u.loginAttempts
     | none => 0) + 1
  { db with users := db.users.map (fun v =>
      if v.id == userId then
        { v with loginAttempts := attempts,
                 blockedUntil :=
                   if MAX_LOGIN_ATTEMPTS ≤ attempts then
                     some (now + LOCKOUT_TIME)
                   else v.blockedUntil }
      else v) }

/-- `AuthService.resetLoginAttempts`. -/
def resetLoginAttempts (db : DB) (userId : Nat) : DB :=
  { db with users := db.users.map (fun v =>
      if v.id == userId then
        { v with loginAttempts := 0, blockedUntil := none }
      else v) }

/-- The `lastLoginAt` update performed inside `login`. -/
def setLastLogin (db : DB) (userId : Nat) (now : Nat) : DB :=
  { db with users := db.users.map (fun v =>
      if v.id == userId then { v with lastLoginAt := some now } else v) }

/-- `AuthService.generateTokenPair`: signs the access/refresh pair and
persists the refresh token row.  Calendar-day arithmetic
(`setDate(getDate() + 7)`) is modelled as whole days of milliseconds. -/
def generateTokenPair (db : DB) (userId : Nat) (email : Str)
    (rememberMe : Bool) (now : Nat) : AuthTokens × DB :=
  let accessToken :=
    generateToken userId email .access ACCESS_TOKEN_EXPIRES_MS now db.nextJti
  let refreshExpiresMs :=
    if rememberMe then 30 * MS_PER_DAY else REFRESH_TOKEN_EXPIRES_MS
  let refreshToken :=
    generateToken userId email .refresh refreshExpiresMs now (db.nextJti + 1)
  let expiresAt := now + (if rememberMe then 30 else 7) * MS_PER_DAY
  let row : RefreshTokenRec :=
    { id := db.nextTokenRecId, token := refreshToken, userId, expiresAt }
  ({ accessToken, refreshToken,
     expiresIn := (if rememberMe then 30 else 7) * MS_PER_DAY },
   { db with refreshTokens := db.refreshTokens ++ [row],
             nextTokenRecId := db.nextTokenRecId + 1,
             nextJti := db.nextJti + 2 })

-- ==============================================
-- AUTHSERVICE: FLOWS
-- ==============================================

/-- `AuthService.register`.  Returns the service result, the store after
the call, and the notifications handed to the e-mail collaborator.  Note
that the source calls `sendVerificationEmail(user.email, user.firstName)`
without generating any token. -/
def register (db : DB) (data : RegisterData) (now : Nat) :
    Except Str AuthResult × DB × List Notif :=
  match validateRegistrationData data with
  | .error e => (.error e, db, [])
  | .ok () =>
    match findUserByEmailOrPhone db data.email data.phone with
    | some existingUser =>
      (.error (if existingUser.email = data.email then msgEmailExists
               else msgPhoneExists), db, [])
    | none =>
      let hashedPassword := bcryptHash data.password
      let _profileSlug := generateUniqueSlug db data.firstName data.lastName
      let user : UserRec :=
        { id := db.nextUserId,
          firstName := jsTrim data.firstName,
          lastName := jsTrim data.lastName,
          email := jsTrim (jsToLower data.email),
          phone := normalizePhoneNumber data.phone,
          password := hashedPassword,
          isProfessional := data.isProfessional.getD false,
          companyName := data.companyName.map jsTrim,
          region := data.region.map jsTrim,
          commune := data.commune.map jsTrim,
          status := .PENDING_VERIFICATION,
          avatar := some (generateDefaultAvatar data.firstName data.lastName),
          emailVerified := false, phoneVerified := false,
          loginAttempts := 0, blockedUntil := none, lastLoginAt := none,
          createdAt := now, updatedAt := now }
      let db1 :=
        { db with users := db.users ++ [user],
                  nextUserId := db.nextUserId + 1 }
      let pair := generateTokenPair db1 user.id user.email false now
      let db3 := logActivity pair.2 "USER_REGISTERED".data user.id
      (.ok { user := user.toPublic, tokens := pair.1 }, db3,
       [Notif.verificationEmail user.email user.firstName])

/-- `AuthService.login`.  The response user is the row as fetched at the
start of the flow (spread minus `password`), exactly as in the source. -/
def login (db : DB) (data : LoginData) (now : Nat) :
    Except Str AuthResult × DB :=
  match findUserByEmailOrPhone db data.identifier data.identifier with
  | none => (.error msgBadCredentials, db)
  | some user =>
    match checkAccountLockout db user.id now with
    | .error msg => (.error msg, db)
    | .ok () =>
      if !(bcryptCompare data.password user.password) then
        (.error msgBadCredentials, handleFailedLogin db user.id now)
      else if user.status = .SUSPENDED then (.error msgSuspended, db)
      else if user.status = .DELETED then (.error msgDeleted, db)
      else
        let db1 := resetLoginAttempts db user.id
        let db2 := setLastLogin db1 user.id now
        let pair :=
          generateTokenPair db2 user.id user.email
            (data.rememberMe.getD false) now
        let db4 := logActivity pair.2 "USER_LOGIN".data user.id
        (.ok { user := user.toPublic, tokens := pair.1 }, db4)

/-- `AuthService.refreshTokens`.  Every internal failure is swallowed by
the surrounding `catch` and rethrown as the one generic message, so all
error exits carry `msgInvalidRefresh`. -/
def refreshTokens (db : DB) (refreshToken : Token) (now : Nat) :
    Except Str AuthTokens × DB :=
  match jwtVerify refreshToken REFRESH_SECRET false now with
  | .error _ => (.error msgInvalidRefresh, db)
  | .ok payload =>
    if payload.type ≠ .refresh then (.error msgInvalidRefresh, db)
    else
      match db.refreshTokens.find? (fun r => r.token == refreshToken) with
      | none => (.error msgInvalidRefresh, db)
      | some tokenRecord =>
        if tokenRecord.expiresAt < now then (.error msgInvalidRefresh, db)
        else
          match findUserById db tokenRecord.userId with
          | none => (.error msgInvalidRefresh, db)
          | some owner =>
            let pair :=
              generateTokenPair db tokenRecord.userId owner.email false now
            let db2 :=
              { pair.2 with refreshTokens :=
                  pair.2.refreshTokens.filter (fun r => !(r.id == tokenRecord.id)) }
            (.ok pair.1, db2)

/-- `AuthService.logout`: deletes the matching refresh-token row, or all
of the user's rows when no token is presented (the controller passes no
token when the caller has no cookie/body token — the all-devices path). -/
def logout (db : DB) (userId : Nat) (refreshToken : Option Token) : DB :=
  let db1 :=
    match refreshToken with
    | some t =>
      { db with refreshTokens := db.refreshTokens.filter (fun r =>
          !(r.userId == userId && r.token == t)) }
    | none =>
      { db with refreshTokens := db.refreshTokens.filter (fun r =>
          !(r.userId == userId)) }
  logActivity db1 "USER_LOGOUT".data userId

/-- `AuthService.requestPasswordReset`: silently returns when the email is
unknown; otherwise issues a reset-purpose token and hands it to the email
collaborator. -/
def requestPasswordReset (db : DB) (email : Str) (now : Nat) :
    DB × List Notif :=
  match db.users.find? (fun u => u.email == jsTrim (jsToLower email)) with
  | none => (db, [])
  | some user =>
    let resetToken :=
      generateToken user.id user.email .reset RESET_TOKEN_EXPIRES_MS now
        db.nextJti
    let db1 := { db with nextJti := db.nextJti + 1 }
    let db2 := logActivity db1 "PASSWORD_RESET_REQUESTED".data user.id
    (db2, [Notif.passwordResetEmail user.email user.firstName resetToken])

/-- The uniform controller response envelope (status, success flag,
message). -/
structure ApiResp where
  status : Nat
  success : Bool
  message : Str
deriving DecidableEq, Repr

def msgResetGeneric : Str :=
  "Si un compte existe avec cet email, un lien de réinitialisation a été envoyé.".data

/-- `AuthController.requestPasswordReset`: always answers with the same
generic 200 once the service returns (the service never reports whether
the email existed). -/
def requestPasswordResetController (db : DB) (email : Str) (now : Nat) :
    ApiResp × DB × List Notif :=
  let pair := requestPasswordReset db email now
  ({ status := 200, success := true, message := msgResetGeneric },
   pair.1, pair.2)

-- ==============================================
-- AUTH MIDDLEWARE (authMiddleware.ts)
-- ==============================================

/-- The `code` field of the middleware's 401/403 responses. -/
inductive AuthCode
  | MISSING_TOKEN
  | REVOKED_TOKEN
  | EXPIRED_TOKEN
  | MALFORMED_TOKEN
  | WRONG_TOKEN_TYPE
  | USER_NOT_FOUND
  | ACCOUNT_SUSPENDED
  | ACCOUNT_DELETED
  | TOKEN_MISMATCH
deriving DecidableEq, Repr

/-- One entry of the in-process `userCache` map: the user snapshot plus
the cache timestamp.  The middleware's select omits the password (and the
lockout counters, which it never reads); the snapshot is modelled with the
common password-free shape `PublicUser`. -/
structure CacheEntry where
  user : PublicUser
  timestamp : Nat
deriving DecidableEq, Repr

/-- The middleware's process state: the store it reads through, the
in-process `revokedTokens` set (kept as an insertion-ordered duplicate-free
list) and the `userCache` map (keyed by user id). -/
structure MwState where
  db : DB
  revokedTokens : List Token
  userCache : List (Nat × CacheEntry)
deriving Repr

/-- `revokedTokens.add(token)` / the exported `revokeToken` helper. -/
def revokeToken (revoked : List Token) (t : Token) : List Token :=
  if t ∈ revoked then revoked else revoked ++ [t]

/-- `cleanupRevokedTokens`: wholesale reset once the set passes 10000
entries, otherwise a no-op. -/
def cleanupRevokedTokens (revoked : List Token) : List Token :=
  if 10000 < revoked.length then [] else revoked

/-- `userCache.get(userId)`. -/
def cacheGet (cache : List (Nat × CacheEntry)) (userId : Nat) :
    Option CacheEntry :=
  (cache.find? (fun e => e.1 == userId)).map (·.2)

/-- `userCache.set(userId, entry)`. -/
def cacheSet (cache : List (Nat × CacheEntry)) (userId : Nat)
    (entry : CacheEntry) : List (Nat × CacheEntry) :=
  (userId, entry) :: cache.filter (fun e => !(e.1 == userId))

/-- `userCache.delete(userId)`. -/
def cacheDel (cache : List (Nat × CacheEntry)) (userId : Nat) :
    List (Nat × CacheEntry) :=
  cache.filter (fun e => !(e.1 == userId))

/-- `updateLastActivity`: the best-effort `lastLoginAt` touch on every
successful authentication. -/
def updateLastActivity (db : DB) (userId : Nat) (now : Nat) : DB :=
  { db with users := db.users.map (fun v =>
      if v.id == userId then { v with lastLoginAt := some now } else v) }

/-- What the middleware attaches to the request on success: the resolved
user and the token metadata. -/
structure AuthOk where
  user : PublicUser
  tokenInfo : TokenPayload
deriving DecidableEq, Repr

/-- The tail of `authenticateToken` once a user snapshot is in hand:
status checks, the token-vs-row email consistency check (with defensive
revocation), then success with the best-effort last-activity update. -/
def finishAuth (st : MwState) (t : Token) (payload : TokenPayload)
    (user : PublicUser) (now : Nat) :
    Except (Nat × AuthCode) AuthOk × MwState :=
  if user.status = .SUSPENDED then (.error (403, .ACCOUNT_SUSPENDED), st)
  else if user.status = .DELETED then
    (.error (403, .ACCOUNT_DELETED),
     { st with revokedTokens := revokeToken st.revokedTokens t,
               userCache := cacheDel st.userCache payload.userId })
  else if user.email ≠ payload.email then
    (.error (401, .TOKEN_MISMATCH),
     { st with revokedTokens := revokeToken st.revokedTokens t,
               userCache := cacheDel st.userCache payload.userId })
  else
    (.ok { user, tokenInfo := payload },
     { st with db := updateLastActivity st.db user.id now })

/-- `authenticateToken` (authMiddleware.ts).  `token` is the bearer token
extracted from the `Authorization` header (`none` when the header is
absent or not a `Bearer` scheme).  Returns the request outcome and the
process state after the request.  The store is assumed reachable, so the
`DB_ERROR` catch branch is unreachable in the model. -/
def authenticateToken (st : MwState) (token : Option Token) (now : Nat) :
    Except (Nat × AuthCode) AuthOk × MwState :=
  match token with
  | none => (.error (401, .MISSING_TOKEN), st)
  | some t =>
    if t ∈ st.revokedTokens then (.error (401, .REVOKED_TOKEN), st)
    else
      match jwtVerify t SECRET true now with
      | .error .tokenExpired => (.error (401, .EXPIRED_TOKEN), st)
      | .error .invalidToken => (.error (401, .MALFORMED_TOKEN), st)
      | .ok payload =>
        if payload.type ≠ .access then
          (.error (401, .WRONG_TOKEN_TYPE), st)
        else
          let fresh : Option CacheEntry :=
            match cacheGet st.userCache payload.userId with
            | some e => if now - e.timestamp ≤ CACHE_DURATION then some e else none
            | none => none
          match fresh with
          | some e => finishAuth st t payload e.user now
          | none =>
            match findUserById st.db payload.userId with
            | none =>
              (.error (401, .USER_NOT_FOUND),
               { st with revokedTokens := revokeToken st.revokedTokens t,
                         userCache := cacheDel st.userCache payload.userId })
            | some u =>
              let st1 :=
                { st with userCache :=
                    (cacheSet st.userCache payload.userId
                      { user := u.toPublic, timestamp := now }) }
              finishAuth st1 t payload u.toPublic now

-- ==============================================
-- HELPER LEMMAS
-- ==============================================

theorem hasPre_append (p r : Str) : hasPre p (p ++ r) = true := by
  induction p with
  | nil => rfl
  | cons c cs ih => simpa [hasPre] using ih

theorem hasPre_take {p s : Str} (h : hasPre p s = true) :
    s.take p.length = p := by
  induction p generalizing s with
  | nil => simp
  | cons c cs ih =>
    cases s with
    | nil => simp [hasPre] at h
    | cons d ds =>
      simp only [hasPre, Bool.and_eq_true, beq_iff_eq] at h
      obtain ⟨rfl, h2⟩ := h
      simpa [List.take] using ih h2

theorem stripWs_idem (s : Str) : stripWs (stripWs s) = stripWs s := by
  simp [stripWs, List.filter_filter]

theorem stripWs_drop (s : Str) (k : Nat) :
    stripWs ((stripWs s).drop k) = (stripWs s).drop k := by
  rw [stripWs, List.filter_eq_self]
  intro c hc
  have hmem : c ∈ stripWs s := List.mem_of_mem_drop hc
  exact (List.mem_filter.mp hmem).2

theorem plus225_eq : "+225".data = ['+', '2', '2', '5'] := by decide

theorem zz225_eq : "00225".data = ['0', '0', '2', '2', '5'] := by decide

theorem z225_eq : "225".data = ['2', '2', '5'] := by decide

/-- Every output of `normalizePhoneNumber` is `+225` followed by a
whitespace-free remainder. -/
theorem normalizePhoneNumber_shape (s : Str) :
    ∃ r, normalizePhoneNumber s = "+225".data ++ r ∧ stripWs r = r := by
  by_cases h1 : hasPre "00225".data (stripWs s) = true
  · exact ⟨(stripWs s).drop 5, by simp [normalizePhoneNumber, h1],
      stripWs_drop s 5⟩
  · rw [Bool.not_eq_true] at h1
    by_cases h2 : hasPre "225".data (stripWs s) = true
    · exact ⟨(stripWs s).drop 3, by simp [normalizePhoneNumber, h1, h2],
        stripWs_drop s 3⟩
    · rw [Bool.not_eq_true] at h2
      by_cases h3 : hasPre "+225".data (stripWs s) = true
      · refine ⟨(stripWs s).drop 4, ?_, stripWs_drop s 4⟩
        have htake := hasPre_take h3
        have hlen : ("+225".data).length = 4 := by decide
        rw [hlen] at htake
        have hid : normalizePhoneNumber s = stripWs s := by
          simp [normalizePhoneNumber, h1, h2, h3]
        rw [hid]
        nth_rewrite 1 [← List.take_append_drop 4 (stripWs s)]
        rw [htake]
      · rw [Bool.not_eq_true] at h3
        exact ⟨stripWs s, by simp [normalizePhoneNumber, h1, h2, h3],
          stripWs_idem s⟩

/-- `hasPre` for the two rewritten prefixes always fails on a string that
starts with a plus sign. -/
theorem hasPre_zz225_plus (r : Str) :
    hasPre "00225".data ("+225".data ++ r) = false := rfl

theorem hasPre_z225_plus (r : Str) :
    hasPre "225".data ("+225".data ++ r) = false := rfl

theorem stripWs_plus225_append {r : Str} (hr : stripWs r = r) :
    stripWs ("+225".data ++ r) = "+225".data ++ r := by
  rw [stripWs, List.filter_append, ← stripWs, ← stripWs, hr]
  congr 1

-- ==============================================
-- C9
-- ==============================================

/-- C9: phone normalization is a projection — every output of
`normalizePhoneNumber` begins with `+225`, and normalizing an already
normalized number leaves it unchanged, so registration and lookup compare
phones in one canonical international format. -/
theorem normalizePhone_projection (s : Str) :
    (normalizePhoneNumber s).take 4 = "+225".data ∧
    normalizePhoneNumber (normalizePhoneNumber s) = normalizePhoneNumber s := by
  obtain ⟨r, hshape, hr⟩ := normalizePhoneNumber_shape s
  constructor
  · have hlen : ("+225".data).length = 4 := by decide
    rw [hshape, ← hlen]
    exact List.take_left _ _
  · rw [hshape]
    simp only [normalizePhoneNumber]
    rw [stripWs_plus225_append hr, hasPre_zz225_plus, hasPre_z225_plus,
      hasPre_append]
    simp

-- ==============================================
-- C6
-- ==============================================

/-- C6: token round-trip — for every identity, purpose and positive ttl,
verifying the token produced by `generateToken` with the purpose's secret
before the ttl elapses yields the same identity id and purpose (the whole
payload, in fact), and verifying it once the ttl has elapsed yields the
expired-kind failure.  `b` covers both verification modes used in the
source (with and without issuer/audience checking). -/
theorem token_round_trip (userId : Nat) (email : Str) (type : TokenType)
    (ttl now now2 jti : Nat) (b : Bool) (httl : 0 < ttl) :
    (now2 < now + ttl →
      jwtVerify (generateToken userId email type ttl now jti)
          (tokenSecret type) b now2 =
        Except.ok { userId, email, type, iat := now, exp := now + ttl }) ∧
    (now + ttl ≤ now2 →
      jwtVerify (generateToken userId email type ttl now jti)
          (tokenSecret type) b now2 =
        Except.error JwtError.tokenExpired) := by
  constructor <;> intro h <;>
    simp [generateToken, jwtVerify] <;> omega

/-- Witness for C6 at a concrete identity, purpose and ttl. -/
theorem token_round_trip_witness :
    jwtVerify (generateToken 7 ['a'] TokenType.access 1000 0 3)
        (tokenSecret TokenType.access) true 500 =
      Except.ok { userId := 7, email := ['a'], type := TokenType.access,
                  iat := 0, exp := 1000 } ∧
    jwtVerify (generateToken 7 ['a'] TokenType.access 1000 0 3)
        (tokenSecret TokenType.access) true 1000 =
      Except.error JwtError.tokenExpired :=
  ⟨(token_round_trip 7 ['a'] TokenType.access 1000 0 500 3 true
      (by decide)).1 (by decide),
   (token_round_trip 7 ['a'] TokenType.access 1000 0 1000 3 true
      (by decide)).2 (by decide)⟩

-- ==============================================
-- MIDDLEWARE ORDER LEMMAS (shared)
-- ==============================================

theorem auth_revoked_mem (st : MwState) (t : Token) (now : Nat)
    (hmem : t ∈ st.revokedTokens) :
    (authenticateToken st (some t) now).1 =
      Except.error (401, AuthCode.REVOKED_TOKEN) := by
  simp [authenticateToken, hmem]

theorem auth_malformed (st : MwState) (t : Token) (now : Nat)
    (hmem : t ∉ st.revokedTokens)
    (hv : jwtVerify t SECRET true now = Except.error JwtError.invalidToken) :
    (authenticateToken st (some t) now).1 =
      Except.error (401, AuthCode.MALFORMED_TOKEN) := by
  simp [authenticateToken, hmem, hv]

theorem auth_expired (st : MwState) (t : Token) (now : Nat)
    (hmem : t ∉ st.revokedTokens)
    (hv : jwtVerify t SECRET true now = Except.error JwtError.tokenExpired) :
    (authenticateToken st (some t) now).1 =
      Except.error (401, AuthCode.EXPIRED_TOKEN) := by
  simp [authenticateToken, hmem, hv]

theorem auth_wrong_type (st : MwState) (t : Token) (now : Nat)
    (p : TokenPayload) (hmem : t ∉ st.revokedTokens)
    (hv : jwtVerify t SECRET true now = Except.ok p)
    (hty : p.type ≠ TokenType.access) :
    (authenticateToken st (some t) now).1 =
      Except.error (401, AuthCode.WRONG_TOKEN_TYPE) := by
  simp [authenticateToken, hmem, hv, hty]

theorem finishAuth_no_revoked_kind (st : MwState) (t : Token)
    (p : TokenPayload) (u : PublicUser) (now : Nat) (s : Nat) :
    (finishAuth st t p u now).1 ≠ Except.error (s, AuthCode.REVOKED_TOKEN) := by
  unfold finishAuth
  split_ifs <;> simp

theorem auth_no_revoked_kind (st : MwState) (t : Token) (now : Nat)
    (hmem : t ∉ st.revokedTokens) (s : Nat) :
    (authenticateToken st (some t) now).1 ≠
      Except.error (s, AuthCode.REVOKED_TOKEN) := by
  simp only [authenticateToken]
  rw [if_neg hmem]
  cases hv : jwtVerify t SECRET true now with
  | error e => cases e <;> simp [hv]
  | ok p =>
    simp only [hv]
    by_cases hty : p.type = TokenType.access
    · simp only [hty, ne_eq, not_true_eq_false, if_false]
      cases hc : cacheGet st.userCache p.userId with
      | some e =>
        by_cases hfr : now - e.timestamp ≤ CACHE_DURATION
        · simpa [hc, hfr] using finishAuth_no_revoked_kind st t p e.user now s
        · simp only [hc, hfr]
          cases hu : findUserById st.db p.userId with
          | none => simp [hu]
          | some u =>
            simpa [hu] using finishAuth_no_revoked_kind _ t p u.toPublic now s
      | none =>
        simp only [hc]
        cases hu : findUserById st.db p.userId with
        | none => simp [hu]
        | some u =>
          simpa [hu] using finishAuth_no_revoked_kind _ t p u.toPublic now s
    · simp [hty]

-- ==============================================
-- C2
-- ==============================================

def dbEmpty : DB :=
  { users := [], refreshTokens := [], logs := [],
    nextUserId := 0, nextTokenRecId := 0, nextJti := 0 }

/-- The concrete registration of §8 of the spec (unique email and phone,
valid shapes). -/
def regKouame : RegisterData :=
  { firstName := "Kouame".data, lastName := "Yao".data,
    email := "a@example.ci".data, phone := "+2250700000001".data,
    password := "Abcdef1".data, isProfessional := none, companyName := none,
    region := none, commune := none }

/-- Observer: the lifecycle status of the identity returned by a
successful auth flow. -/
def registeredStatus (r : Except Str AuthResult) : Option UserStatus :=
  match r with
  | .ok a => some a.user.status
  | .error _ => none

/-- C2: at a concrete valid registration with unique email and phone, the
code succeeds with the identity in pending-verification status and a
password-free response shape (`PublicUser` carries no password field), but
the notification collaborator is handed only the email address and first
name — no verification-purpose token is issued anywhere in the flow, so
nothing can "independently decode to the same identity id with
purpose=verification".  This exhibits the divergence from the claim. -/
theorem register_no_verification_token :
    register dbEmpty regKouame 5 |>.2.2 =
      [Notif.verificationEmail "a@example.ci".data "Kouame".data] ∧
    registeredStatus (register dbEmpty regKouame 5).1 =
      some UserStatus.PENDING_VERIFICATION := by
  constructor <;> decide

-- ==============================================
-- C3
-- ==============================================

/-- A middleware state whose revocation set holds a malformed token. -/
def stRevokedMalformed : MwState :=
  { db := dbEmpty, revokedTokens := [Token.malformed "x".data],
    userCache := [] }

/-- C3 counterexample: a malformed bearer token that sits in the local
revocation set is reported as `REVOKED_TOKEN`, not as malformed — the
revocation check runs before signature validation, contradicting the
claimed order ("a malformed or expired token is reported as
malformed/expired, never as revoked"). -/
theorem auth_order_counterexample :
    jwtVerify (Token.malformed "x".data) SECRET true 0 =
      Except.error JwtError.invalidToken ∧
    (authenticateToken stRevokedMalformed
        (some (Token.malformed "x".data)) 0).1 =
      Except.error (401, AuthCode.REVOKED_TOKEN) := by
  constructor <;> decide

/-- C3 (amended): the verifier checks the local revocation set first —
any token in the set fails with kind revoked regardless of signature
validity — and only a token not in the set is then classified by signature
validity (malformed / expired) and purpose (wrong-type). -/
theorem auth_check_order :
    (∀ st t now, t ∈ st.revokedTokens →
      (authenticateToken st (some t) now).1 =
        Except.error (401, AuthCode.REVOKED_TOKEN)) ∧
    (∀ st t now, t ∉ st.revokedTokens →
      jwtVerify t SECRET true now = Except.error JwtError.invalidToken →
      (authenticateToken st (some t) now).1 =
        Except.error (401, AuthCode.MALFORMED_TOKEN)) ∧
    (∀ st t now, t ∉ st.revokedTokens →
      jwtVerify t SECRET true now = Except.error JwtError.tokenExpired →
      (authenticateToken st (some t) now).1 =
        Except.error (401, AuthCode.EXPIRED_TOKEN)) ∧
    (∀ st t now p, t ∉ st.revokedTokens →
      jwtVerify t SECRET true now = Except.ok p →
      p.type ≠ TokenType.access →
      (authenticateToken st (some t) now).1 =
        Except.error (401, AuthCode.WRONG_TOKEN_TYPE)) :=
  ⟨auth_revoked_mem, auth_malformed, auth_expired,
   fun st t now p => auth_wrong_type st t now p⟩

/-- Witness for C3's amended order theorem: each branch exercised at a
concrete state and token. -/
theorem auth_check_order_witness :
    (authenticateToken stRevokedMalformed
        (some (Token.malformed "x".data)) 0).1 =
      Except.error (401, AuthCode.REVOKED_TOKEN) ∧
    (authenticateToken stRevokedMalformed
        (some (Token.malformed "y".data)) 0).1 =
      Except.error (401, AuthCode.MALFORMED_TOKEN) ∧
    (authenticateToken stRevokedMalformed
        (some (generateToken 0 ['a'] TokenType.access 100 0 0)) 100).1 =
      Except.error (401, AuthCode.EXPIRED_TOKEN) ∧
    (authenticateToken stRevokedMalformed
        (some (generateToken 0 ['a'] TokenType.reset 100 0 0)) 50).1 =
      Except.error (401, AuthCode.WRONG_TOKEN_TYPE) :=
  ⟨auth_check_order.1 stRevokedMalformed (Token.malformed "x".data) 0
      (by decide),
   auth_check_order.2.1 stRevokedMalformed (Token.malformed "y".data) 0
      (by decide) (by decide),
   auth_check_order.2.2.1 stRevokedMalformed
      (generateToken 0 ['a'] TokenType.access 100 0 0) 100
      (by decide) (by decide),
   auth_check_order.2.2.2 stRevokedMalformed
      (generateToken 0 ['a'] TokenType.reset 100 0 0) 50
      { userId := 0, email := ['a'], type := TokenType.reset,
        iat := 0, exp := 100 }
      (by decide) (by decide) (by decide)⟩

-- ==============================================
-- C10
-- ==============================================

/-- An identity whose account has been deleted (the defensive-revocation
scenario of the middleware). -/
def uDeleted : UserRec :=
  { id := 0, email := "d@example.ci".data, phone := "+2250700000002".data,
    password := bcryptHash "Abcdef1".data, firstName := "Awa".data,
    lastName := "Kone".data, avatar := none, isProfessional := false,
    companyName := none, region := none, commune := none,
    emailVerified := true, phoneVerified := false,
    status := UserStatus.DELETED, loginAttempts := 0, blockedUntil := none,
    lastLoginAt := none, createdAt := 0, updatedAt := 0 }

def dbDeleted : DB :=
  { users := [uDeleted], refreshTokens := [], logs := [],
    nextUserId := 1, nextTokenRecId := 0, nextJti := 1 }

/-- A signature-valid, unexpired access token for the deleted identity —
the kind of token the middleware defensively revokes. -/
def tokDeleted : Token :=
  generateToken 0 "d@example.ci".data TokenType.access
    ACCESS_TOKEN_EXPIRES_MS 0 0

/-- A revocation set of 10001 entries containing `tokDeleted`. -/
def bigRevoked : List Token :=
  tokDeleted :: (List.range 10000).map (fun i => Token.malformed (Nat.toDigits 10 i))

/-- The middleware state right after the periodic cleanup has fired on
`bigRevoked`. -/
def stAfterCleanup : MwState :=
  { db := dbDeleted, revokedTokens := cleanupRevokedTokens bigRevoked,
    userCache := [] }

theorem bigRevoked_length : bigRevoked.length = 10001 := by
  simp [bigRevoked]

/-- C10 counterexample: `tokDeleted` was defensively revoked (it sits in a
revocation set of 10001 entries) and has not yet expired, and the cleanup
does empty the set — but after the cleanup the verifier does NOT accept
the token again: the identity is still deleted, so the request fails with
`ACCOUNT_DELETED` (it merely stops failing as revoked). -/
theorem cleanup_acceptance_counterexample :
    tokDeleted ∈ bigRevoked ∧
    10000 < bigRevoked.length ∧
    cleanupRevokedTokens bigRevoked = [] ∧
    (jwtVerify tokDeleted SECRET true 1000).isOk = true ∧
    (authenticateToken stAfterCleanup (some tokDeleted) 1000).1 =
      Except.error (403, AuthCode.ACCOUNT_DELETED) := by
  have hclean : cleanupRevokedTokens bigRevoked = [] := by
    rw [cleanupRevokedTokens, if_pos]
    rw [bigRevoked_length]
    omega
  have hst : stAfterCleanup =
      { db := dbDeleted, revokedTokens := [], userCache := [] } := by
    rw [stAfterCleanup, hclean]
  refine ⟨List.mem_cons_self _ _, by rw [bigRevoked_length]; omega, hclean,
    by decide, ?_⟩
  rw [hst]
  decide

/-- C10 (amended): the periodic cleanup empties the entire in-process
revoked-token set exactly when it holds more than 10000 entries;
consequently a token not (or no longer) in the set is never rejected with
kind revoked — after a wholesale reset a previously revoked token passes
the revocation gate again (though it may still fail identity resolution,
e.g. for a deleted account) — while any token sitting in the set is
rejected as revoked on every request, and a cleanup of a set of at most
10000 entries changes nothing. -/
theorem cleanup_revocation_semantics :
    (∀ s : List Token, 10000 < s.length → cleanupRevokedTokens s = []) ∧
    (∀ s : List Token, s.length ≤ 10000 → cleanupRevokedTokens s = s) ∧
    (∀ st t now (s : Nat), t ∉ st.revokedTokens →
      (authenticateToken st (some t) now).1 ≠
        Except.error (s, AuthCode.REVOKED_TOKEN)) ∧
    (∀ st t now, t ∈ st.revokedTokens →
      (authenticateToken st (some t) now).1 =
        Except.error (401, AuthCode.REVOKED_TOKEN)) := by
  refine ⟨?_, ?_, ?_, auth_revoked_mem⟩
  · intro s h
    rw [cleanupRevokedTokens, if_pos h]
  · intro s h
    rw [cleanupRevokedTokens, if_neg (by omega)]
  · intro st t now s hmem
    exact auth_no_revoked_kind st t now hmem s

/-- The state of `stAfterCleanup` with the emptied set spelled out. -/
def stEmptied : MwState :=
  { db := dbDeleted, revokedTokens := [], userCache := [] }

/-- Witness for C10's amended theorem: each branch at a concrete set,
state and token. -/
theorem cleanup_revocation_semantics_witness :
    cleanupRevokedTokens bigRevoked = [] ∧
    cleanupRevokedTokens [tokDeleted] = [tokDeleted] ∧
    (authenticateToken stEmptied (some tokDeleted) 1000).1 ≠
      Except.error (403, AuthCode.REVOKED_TOKEN) ∧
    (authenticateToken stRevokedMalformed
        (some (Token.malformed "x".data)) 7).1 =
      Except.error (401, AuthCode.REVOKED_TOKEN) :=
  ⟨cleanup_revocation_semantics.1 bigRevoked
      (by rw [bigRevoked_length]; omega),
   cleanup_revocation_semantics.2.1 [tokDeleted] (by decide),
   cleanup_revocation_semantics.2.2.1 stEmptied tokDeleted 1000 403
      (by decide),
   cleanup_revocation_semantics.2.2.2 stRevokedMalformed
      (Token.malformed "x".data) 7 (by decide)⟩

-- ==============================================
-- STORE UPDATE LEMMAS (shared)
-- ==============================================

/-- In a table with duplicate-free ids, looking a member up by its id
finds exactly it. -/
theorem find?_id_of_mem {l : List UserRec} {u : UserRec}
    (hn : (l.map (·.id)).Nodup) (hm : u ∈ l) :
    l.find? (fun v => v.id == u.id) = some u := by
  induction l with
  | nil => cases hm
  | cons h t ih =>
    rw [List.map_cons, List.nodup_cons] at hn
    rcases List.mem_cons.mp hm with rfl | hm2
    · rw [List.find?_cons_of_pos _ (by simp)]
    · have hne : (h.id == u.id) = false := by
        apply beq_eq_false_iff_ne.mpr
        intro he
        apply hn.1
        rw [he]
        exact List.mem_map_of_mem (·.id) hm2
      rw [List.find?_cons_of_neg _ (by simp [hne])]
      exact ih hn.2 hm2

/-- A keyed row update (`prisma.user.update({ where: { id: k } })`,
modelled as a map) moves a `find?` result through the update when the
table's ids are duplicate-free and the updated row still satisfies the
search predicate. -/
theorem find?_update {l : List UserRec} {q : UserRec → Bool} {u : UserRec}
    (g : UserRec → UserRec) (k : Nat)
    (hn : (l.map (·.id)).Nodup) (hf : l.find? q = some u)
    (hk : u.id = k) (hq : q (g u) = true) :
    (l.map (fun v => if v.id == k then g v else v)).find? q
      = some (g u) := by
  induction l with
  | nil => simp at hf
  | cons h t ih =>
    rw [List.map_cons, List.nodup_cons] at hn
    by_cases hh : q h = true
    · rw [List.find?_cons_of_pos _ hh] at hf
      obtain rfl : h = u := by injection hf
      rw [List.map_cons, if_pos (by simp [hk]),
        List.find?_cons_of_pos _ hq]
    · rw [List.find?_cons_of_neg _ (by simp [hh])] at hf
      have hm2 : u ∈ t := List.mem_of_find?_eq_some hf
      have hne : (h.id == k) = false := by
        apply beq_eq_false_iff_ne.mpr
        intro he
        apply hn.1
        rw [he, ← hk]
        exact List.mem_map_of_mem (·.id) hm2
      rw [List.map_cons, if_neg (by simp [hne]),
        List.find?_cons_of_neg _ (by simp [hh])]
      exact ih hn.2 hf

/-- A keyed row update that does not change ids preserves the table's id
column. -/
theorem map_update_ids (l : List UserRec) (k : Nat) (g : UserRec → UserRec)
    (hg : ∀ v, (g v).id = v.id) :
    (l.map (fun v => if v.id == k then g v else v)).map (·.id)
      = l.map (·.id) := by
  rw [List.map_map]
  apply List.map_congr_left
  intro v _
  by_cases hv : (v.id == k) = true
  · simp [Function.comp, hv, hg v]
  · simp [Function.comp, hv]

-- ==============================================
-- C7
-- ==============================================

/-- C7: guard-reset invariant — a login with the correct password on an
active identity that passes the lockout gate succeeds, and afterwards the
stored identity has its attempt counter at zero and its lockout-until
cleared (with the last-login stamp refreshed), whatever the counter held
before. -/
theorem login_resets_guard
    (db : DB) (data : LoginData) (now : Nat) (u : UserRec)
    (hn : (db.users.map (·.id)).Nodup)
    (hfind : findUserByEmailOrPhone db data.identifier data.identifier
      = some u)
    (hlock : checkAccountLockout db u.id now = Except.ok ())
    (hpw : bcryptCompare data.password u.password = true)
    (hactive : u.status = UserStatus.ACTIVE) :
    ∃ res db2, login db data now = (Except.ok res, db2) ∧
      res.user = u.toPublic ∧
      findUserById db2 u.id = some
        { u with loginAttempts := 0, blockedUntil := none,
                 lastLoginAt := some now } := by
  have hsusp : ¬ u.status = UserStatus.SUSPENDED := by
    rw [hactive]; simp
  have hdel : ¬ u.status = UserStatus.DELETED := by
    rw [hactive]; simp
  have hmem : u ∈ db.users :=
    List.mem_of_find?_eq_some hfind
  have heq : login db data now =
      (Except.ok (AuthResult.mk u.toPublic (generateTokenPair
            (setLastLogin (resetLoginAttempts db u.id) u.id now)
            u.id u.email (data.rememberMe.getD false) now).1),
       logActivity (generateTokenPair
            (setLastLogin (resetLoginAttempts db u.id) u.id now)
            u.id u.email (data.rememberMe.getD false) now).2
         "USER_LOGIN".data u.id) := by
    simp only [login, hfind, hlock, hpw, Bool.not_true, Bool.false_eq_true,
      if_false]
    rw [if_neg hsusp, if_neg hdel]
  refine ⟨_, _, heq, rfl, ?_⟩
  · have hbase : db.users.find? (fun v => v.id == u.id) = some u :=
      find?_id_of_mem hn hmem
    have h1 := find?_update
      (fun v => { v with loginAttempts := 0, blockedUntil := none })
      u.id hn hbase rfl (by simp)
    simp only [] at h1
    have hn1 : (((db.users.map (fun v => if v.id == u.id then
        { v with loginAttempts := 0, blockedUntil := none } else v))).map
          (·.id)).Nodup := by
      rw [map_update_ids db.users u.id
        (fun v => { v with loginAttempts := 0, blockedUntil := none })
        (fun v => rfl)]
      exact hn
    have h2 := find?_update
      (fun v => { v with lastLoginAt := some now })
      u.id hn1 h1 rfl (by simp)
    exact h2

/-- An active identity with a nonzero attempt counter. -/
def uActive : UserRec :=
  { id := 0, email := "b@example.ci".data, phone := "+2250700000004".data,
    password := bcryptHash "Abcdef1".data, firstName := "Mariam".data,
    lastName := "Diabate".data, avatar := none, isProfessional := false,
    companyName := none, region := none, commune := none,
    emailVerified := true, phoneVerified := false,
    status := UserStatus.ACTIVE, loginAttempts := 3, blockedUntil := none,
    lastLoginAt := none, createdAt := 0, updatedAt := 0 }

def dbActive : DB :=
  { users := [uActive], refreshTokens := [], logs := [],
    nextUserId := 1, nextTokenRecId := 0, nextJti := 0 }

/-- Witness for C7: a concrete correct-password login on an active,
unlocked identity whose counter stood at 3. -/
theorem login_resets_guard_witness :
    ∃ res db2,
      login dbActive (LoginData.mk "b@example.ci".data "Abcdef1".data none)
          1000 = (Except.ok res, db2) ∧
      res.user = uActive.toPublic ∧
      findUserById db2 uActive.id = some
        { uActive with loginAttempts := 0, blockedUntil := none,
                       lastLoginAt := some 1000 } :=
  login_resets_guard dbActive
    (LoginData.mk "b@example.ci".data "Abcdef1".data none) 1000 uActive
    (by decide) (by decide) (by decide) (by decide) (by decide)

-- ==============================================
-- C4
-- ==============================================

/-- C4: account-lockout boundary — with the attempt counter at 4, a 5th
consecutive failed login stamps `blockedUntil = now + 15min` on the
identity; afterwards, while the lockout lies in the future, every login
attempt (any password, so in particular the correct one, and without the
password hash influencing the outcome) is rejected with the lockout
message carrying the positive rounded-up remaining minutes, and the store
is left untouched (no attempt is consumed). -/
theorem lockout_boundary
    (db : DB) (ident pw : Str) (rm : Option Bool) (now : Nat) (u : UserRec)
    (hn : (db.users.map (·.id)).Nodup)
    (hfind : findUserByEmailOrPhone db ident ident = some u)
    (hatt : u.loginAttempts = 4)
    (hlock : checkAccountLockout db u.id now = Except.ok ())
    (hpw : bcryptCompare pw u.password = false) :
    ∃ db2,
      login db (LoginData.mk ident pw rm) now
        = (Except.error msgBadCredentials, db2) ∧
      findUserById db2 u.id = some
        { u with loginAttempts := 5,
                 blockedUntil := some (now + LOCKOUT_TIME) } ∧
      (∀ pw2 rm2 now2, now2 < now + LOCKOUT_TIME →
        login db2 (LoginData.mk ident pw2 rm2) now2
          = (Except.error (lockoutMessage
              (remainingMinutes (now + LOCKOUT_TIME) now2)), db2) ∧
        0 < remainingMinutes (now + LOCKOUT_TIME) now2) := by
  have hmem : u ∈ db.users := List.mem_of_find?_eq_some hfind
  have hfid : db.users.find? (fun v => v.id == u.id) = some u :=
    find?_id_of_mem hn hmem
  have hfind0 : db.users.find? (fun v =>
      v.email == jsTrim (jsToLower ident) ||
      v.phone == normalizePhoneNumber ident) = some u := hfind
  have hfail : handleFailedLogin db u.id now =
      { db with users := db.users.map (fun v => if v.id == u.id then
          { v with loginAttempts := 5,
                   blockedUntil := some (now + LOCKOUT_TIME) } else v) } := by
    simp [handleFailedLogin, findUserById, hfid, hatt, MAX_LOGIN_ATTEMPTS]
  have heq1 : login db (LoginData.mk ident pw rm) now
      = (Except.error msgBadCredentials, handleFailedLogin db u.id now) := by
    simp [login, hfind, hlock, hpw]
  have hq0 : ((fun v : UserRec => v.email == jsTrim (jsToLower ident) ||
      v.phone == normalizePhoneNumber ident)
        { u with loginAttempts := 5,
                 blockedUntil := some (now + LOCKOUT_TIME) }) = true := by
    simpa using List.find?_some hfind0
  have h2 := find?_update
    (fun v => { v with loginAttempts := 5, blockedUntil := some (now + LOCKOUT_TIME) })
    u.id hn hfid rfl (by simp)
  simp only [] at h2
  have h3 := find?_update
    (fun v => { v with loginAttempts := 5, blockedUntil := some (now + LOCKOUT_TIME) })
    u.id hn hfind0 rfl hq0
  simp only [] at h3
  refine ⟨handleFailedLogin db u.id now, heq1, ?_, ?_⟩
  · rw [hfail]
    exact h2
  · intro pw2 rm2 now2 hlt
    have hpos : 0 < remainingMinutes (now + LOCKOUT_TIME) now2 := by
      have h60 : 0 < MS_PER_MINUTE := by norm_num [MS_PER_MINUTE]
      apply (Nat.le_div_iff_mul_le h60).mpr
      rw [MS_PER_MINUTE] at *
      omega
    refine ⟨?_, hpos⟩
    have hfind2 : findUserByEmailOrPhone (handleFailedLogin db u.id now)
        ident ident
        = some { u with loginAttempts := 5, blockedUntil := some (now + LOCKOUT_TIME) } := by
      rw [findUserByEmailOrPhone, hfail]
      exact h3
    have hfid2 : findUserById (handleFailedLogin db u.id now) u.id
        = some { u with loginAttempts := 5, blockedUntil := some (now + LOCKOUT_TIME) } := by
      rw [findUserById, hfail]
      exact h2
    have hchk : checkAccountLockout (handleFailedLogin db u.id now)
        u.id now2
        = Except.error (lockoutMessage
            (remainingMinutes (now + LOCKOUT_TIME) now2)) := by
      simp only [checkAccountLockout, hfid2]
      rw [if_pos hlt]
    simp [login, hfind2, hchk]

/-- An identity one failed attempt short of the lockout threshold. -/
def uNearLock : UserRec :=
  { id := 0, email := "c@example.ci".data, phone := "+2250700000003".data,
    password := bcryptHash "Abcdef1".data, firstName := "Issa".data,
    lastName := "Toure".data, avatar := none, isProfessional := false,
    companyName := none, region := none, commune := none,
    emailVerified := true, phoneVerified := false,
    status := UserStatus.ACTIVE, loginAttempts := 4, blockedUntil := none,
    lastLoginAt := none, createdAt := 0, updatedAt := 0 }

def dbNearLock : DB :=
  { users := [uNearLock], refreshTokens := [], logs := [],
    nextUserId := 1, nextTokenRecId := 0, nextJti := 0 }

/-- Witness for C4: the 5th failed attempt at time 0 locks the account
until 900000; the inner quantifiers then cover any later attempt inside
the window. -/
theorem lockout_boundary_witness :
    ∃ db2,
      login dbNearLock (LoginData.mk "c@example.ci".data "wrong0".data none) 0
        = (Except.error msgBadCredentials, db2) ∧
      findUserById db2 uNearLock.id = some
        { uNearLock with loginAttempts := 5,
                         blockedUntil := some (0 + LOCKOUT_TIME) } ∧
      (∀ pw2 rm2 now2, now2 < 0 + LOCKOUT_TIME →
        login db2 (LoginData.mk "c@example.ci".data pw2 rm2) now2
          = (Except.error (lockoutMessage
              (remainingMinutes (0 + LOCKOUT_TIME) now2)), db2) ∧
        0 < remainingMinutes (0 + LOCKOUT_TIME) now2) :=
  lockout_boundary dbNearLock "c@example.ci".data "wrong0".data none 0
    uNearLock (by decide) (by decide) (by decide) (by decide) (by decide)

-- ==============================================
-- C5
-- ==============================================

/-- C5: anti-enumeration — a login whose identifier matches no identity
fails with exactly the same message as a login whose identifier matches an
identity (that passes the lockout gate) but whose password is wrong; and
the password-reset request endpoint answers with one fixed generic 200
response for every store and email, whether or not the email exists. -/
theorem anti_enumeration :
    (∀ db data now,
      findUserByEmailOrPhone db data.identifier data.identifier = none →
      (login db data now).1 = Except.error msgBadCredentials) ∧
    (∀ db data now u,
      findUserByEmailOrPhone db data.identifier data.identifier = some u →
      checkAccountLockout db u.id now = Except.ok () →
      bcryptCompare data.password u.password = false →
      (login db data now).1 = Except.error msgBadCredentials) ∧
    (∀ db email now,
      (requestPasswordResetController db email now).1 =
        ApiResp.mk 200 true msgResetGeneric) := by
  refine ⟨?_, ?_, ?_⟩
  · intro db data now h
    simp [login, h]
  · intro db data now u hf hl hp
    simp [login, hf, hl, hp]
  · intro db email now
    rfl

/-- Witness for C5: the two failing login runs (unknown identifier vs
known identifier with wrong password) produce the same message, and the
reset endpoint answers identically for an existing and a non-existing
email. -/
theorem anti_enumeration_witness :
    (login dbActive
        (LoginData.mk "nobody@example.ci".data "Abcdef1".data none) 9).1 =
      Except.error msgBadCredentials ∧
    (login dbActive
        (LoginData.mk "b@example.ci".data "Wrong99".data none) 9).1 =
      Except.error msgBadCredentials ∧
    (requestPasswordResetController dbActive "b@example.ci".data 9).1 =
      ApiResp.mk 200 true msgResetGeneric ∧
    (requestPasswordResetController dbActive "nobody@example.ci".data 9).1 =
      ApiResp.mk 200 true msgResetGeneric :=
  ⟨anti_enumeration.1 dbActive
      (LoginData.mk "nobody@example.ci".data "Abcdef1".data none) 9
      (by decide),
   anti_enumeration.2.1 dbActive
      (LoginData.mk "b@example.ci".data "Wrong99".data none) 9 uActive
      (by decide) (by decide) (by decide),
   anti_enumeration.2.2 dbActive "b@example.ci".data 9,
   anti_enumeration.2.2 dbActive "nobody@example.ci".data 9⟩

-- ==============================================
-- C8 (and shared refresh lemma)
-- ==============================================

/-- When no Revocation Record matches the presented token, a refresh
attempt fails (whatever the clock says — a signature failure and a missing
row surface as the same generic error). -/
theorem refreshTokens_notFound (db : DB) (t : Token) (now : Nat)
    (h : db.refreshTokens.find? (fun r => r.token == t) = none) :
    (refreshTokens db t now).1 = Except.error msgInvalidRefresh := by
  cases hv : jwtVerify t REFRESH_SECRET false now with
  | error e => simp [refreshTokens, hv]
  | ok p =>
    by_cases hty : p.type = TokenType.refresh
    · simp [refreshTokens, hv, hty, h]
    · simp [refreshTokens, hv, hty]

/-- C8: logout scopes — invoked in all-devices mode (no token presented),
logout deletes exactly the caller's Revocation Records, after which a
refresh attempt with any refresh token previously persisted for that
identity fails; invoked with a specific presented token, it deletes
exactly the records matching the caller and that token, leaving every
other record in place. -/
theorem logout_scopes (db : DB) (uid : Nat)
    (htok : (db.refreshTokens.map (·.token)).Nodup) :
    ((logout db uid none).refreshTokens =
        db.refreshTokens.filter (fun r => !(r.userId == uid)) ∧
     ∀ t r0, r0 ∈ db.refreshTokens → r0.userId = uid → r0.token = t →
       ∀ now2, (refreshTokens (logout db uid none) t now2).1 =
         Except.error msgInvalidRefresh) ∧
    (∀ t r, r ∈ db.refreshTokens →
      (r ∈ (logout db uid (some t)).refreshTokens ↔
        ¬(r.userId = uid ∧ r.token = t))) := by
  have hrw : (logout db uid none).refreshTokens =
      db.refreshTokens.filter (fun r => !(r.userId == uid)) := rfl
  refine ⟨⟨hrw, ?_⟩, ?_⟩
  · intro t r0 hr0 hu0 ht0 now2
    apply refreshTokens_notFound
    rw [hrw, List.find?_eq_none]
    intro r hr
    have hmf := List.mem_filter.mp hr
    intro hrt
    have hrt' : r.token = t := by simpa using hrt
    have : r = r0 :=
      List.inj_on_of_nodup_map htok hmf.1 hr0 (by rw [hrt', ht0])
    rw [this, hu0] at hmf
    simpa using hmf.2
  · intro t r hr
    have hrw2 : (logout db uid (some t)).refreshTokens =
        db.refreshTokens.filter
          (fun r => !(r.userId == uid && r.token == t)) := rfl
    rw [hrw2]
    constructor
    · intro hmem2 hand
      have hb := (List.mem_filter.mp hmem2).2
      rw [hand.1, hand.2] at hb
      simp at hb
    · intro hne
      apply List.mem_filter.mpr
      refine ⟨hr, ?_⟩
      by_cases h1 : r.userId = uid
      · by_cases h2 : r.token = t
        · exact absurd ⟨h1, h2⟩ hne
        · simp [h2]
      · simp [h1]

def uOwner : UserRec :=
  { id := 0, email := "e@example.ci".data, phone := "+2250700000005".data,
    password := bcryptHash "Abcdef1".data, firstName := "Sery".data,
    lastName := "Bamba".data, avatar := none, isProfessional := false,
    companyName := none, region := none, commune := none,
    emailVerified := true, phoneVerified := false,
    status := UserStatus.ACTIVE, loginAttempts := 0, blockedUntil := none,
    lastLoginAt := none, createdAt := 0, updatedAt := 0 }

def uOther : UserRec :=
  { uOwner with id := 1, email := "f@example.ci".data,
                phone := "+2250700000006".data }

def rtA : Token :=
  generateToken 0 "e@example.ci".data TokenType.refresh
    REFRESH_TOKEN_EXPIRES_MS 0 0

def rtB : Token :=
  generateToken 0 "e@example.ci".data TokenType.refresh
    REFRESH_TOKEN_EXPIRES_MS 0 1

def rtC : Token :=
  generateToken 1 "f@example.ci".data TokenType.refresh
    REFRESH_TOKEN_EXPIRES_MS 0 2

def recA : RefreshTokenRec :=
  { id := 0, token := rtA, userId := 0,
    expiresAt := REFRESH_TOKEN_EXPIRES_MS }

def recB : RefreshTokenRec :=
  { id := 1, token := rtB, userId := 0,
    expiresAt := REFRESH_TOKEN_EXPIRES_MS }

def recC : RefreshTokenRec :=
  { id := 2, token := rtC, userId := 1,
    expiresAt := REFRESH_TOKEN_EXPIRES_MS }

/-- A store with two sessions for identity 0 and one for identity 1. -/
def dbSessions : DB :=
  { users := [uOwner, uOther], refreshTokens := [recA, recB, recC],
    logs := [], nextUserId := 2, nextTokenRecId := 3, nextJti := 3 }

/-- Witness for C8 on `dbSessions`: all-devices logout of identity 0
leaves only identity 1's record and kills a replay of `rtA`; a targeted
logout keeps `recB` and removes `recA`. -/
theorem logout_scopes_witness :
    (logout dbSessions 0 none).refreshTokens =
      dbSessions.refreshTokens.filter (fun r => !(r.userId == 0)) ∧
    (refreshTokens (logout dbSessions 0 none) rtA 1000).1 =
      Except.error msgInvalidRefresh ∧
    (recB ∈ (logout dbSessions 0 (some rtA)).refreshTokens ↔
      ¬(recB.userId = 0 ∧ recB.token = rtA)) ∧
    (recA ∈ (logout dbSessions 0 (some rtA)).refreshTokens ↔
      ¬(recA.userId = 0 ∧ recA.token = rtA)) :=
  ⟨(logout_scopes dbSessions 0 (by decide)).1.1,
   (logout_scopes dbSessions 0 (by decide)).1.2 rtA recA (by decide)
      (by decide) (by decide) 1000,
   (logout_scopes dbSessions 0 (by decide)).2 rtA recB (by decide),
   (logout_scopes dbSessions 0 (by decide)).2 rtA recA (by decide)⟩

-- ==============================================
-- C1
-- ==============================================

/-- C1: refresh rotation — presenting a signature-valid refresh-purpose
token whose Revocation Record is live succeeds exactly once: the call
returns a brand-new pair (both fresh tokens differ from the presented
one), deletes the old record (no record for the token remains), and any
replay of the same token — at any later or earlier clock — fails. -/
theorem refresh_rotation
    (db : DB) (t : Token) (now : Nat) (p : TokenPayload)
    (trec : RefreshTokenRec) (owner : UserRec)
    (hids : (db.refreshTokens.map (·.id)).Nodup)
    (htoks : (db.refreshTokens.map (·.token)).Nodup)
    (hjti : ∀ r ∈ db.refreshTokens, r.token.jtiLt db.nextJti = true)
    (hsig : jwtVerify t REFRESH_SECRET false now = Except.ok p)
    (hpur : p.type = TokenType.refresh)
    (hfind : db.refreshTokens.find? (fun r => r.token == t) = some trec)
    (hlive : ¬ trec.expiresAt < now)
    (howner : findUserById db trec.userId = some owner) :
    ∃ tokens db2, refreshTokens db t now = (Except.ok tokens, db2) ∧
      tokens.accessToken ≠ t ∧ tokens.refreshToken ≠ t ∧
      db2.refreshTokens.find? (fun r => r.token == t) = none ∧
      ∀ now2, (refreshTokens db2 t now2).1 =
        Except.error msgInvalidRefresh := by
  have htmem : trec ∈ db.refreshTokens := List.mem_of_find?_eq_some hfind
  have htokeq : trec.token = t := by
    have h := List.find?_some hfind
    simpa using h
  cases t with
  | malformed raw => simp [jwtVerify] at hsig
  | signed p0 sec iss aud j =>
    simp only [jwtVerify] at hsig
    split_ifs at hsig with h1 h2 h3
    rw [Except.ok.injEq] at hsig
    subst hsig
    obtain rfl : sec = REFRESH_SECRET := not_not.mp h1
    have hjlt : j < db.nextJti := by
      have hx := hjti trec htmem
      rw [htokeq] at hx
      simpa [Token.jtiLt] using hx
    have hv : jwtVerify (Token.signed p0 REFRESH_SECRET iss aud j)
        REFRESH_SECRET false now = Except.ok p0 := by
      simp [jwtVerify, h2]
    have hty : ¬ (p0.type ≠ TokenType.refresh) := by simp [hpur]
    have heq : refreshTokens db (Token.signed p0 REFRESH_SECRET iss aud j)
        now =
        (Except.ok (generateTokenPair db trec.userId owner.email
            false now).1,
         { (generateTokenPair db trec.userId owner.email false now).2 with
            refreshTokens := ((generateTokenPair db trec.userId owner.email
              false now).2).refreshTokens.filter
                (fun r => !(r.id == trec.id)) }) := by
      simp only [refreshTokens, hv, hfind, howner]
      rw [if_neg hty, if_neg hlive]
    have hacc : (generateTokenPair db trec.userId owner.email
        false now).1.accessToken ≠ Token.signed p0 REFRESH_SECRET iss aud j := by
      simp only [generateTokenPair, generateToken]
      intro hcontra
      injection hcontra with hp hs hi ha hj
      omega
    have href : (generateTokenPair db trec.userId owner.email
        false now).1.refreshToken ≠ Token.signed p0 REFRESH_SECRET iss aud j := by
      simp only [generateTokenPair, generateToken]
      intro hcontra
      injection hcontra with hp hs hi ha hj
      omega
    have hrows : ((generateTokenPair db trec.userId owner.email
        false now).2).refreshTokens
        = db.refreshTokens ++
          [RefreshTokenRec.mk db.nextTokenRecId
            (generateToken trec.userId owner.email TokenType.refresh
              REFRESH_TOKEN_EXPIRES_MS now (db.nextJti + 1))
            trec.userId (now + 7 * MS_PER_DAY)] := by
      simp [generateTokenPair]
    have hnone : ({ (generateTokenPair db trec.userId owner.email
          false now).2 with
        refreshTokens := ((generateTokenPair db trec.userId owner.email
          false now).2).refreshTokens.filter
            (fun r => !(r.id == trec.id)) } : DB).refreshTokens.find?
          (fun r => r.token == Token.signed p0 REFRESH_SECRET iss aud j)
        = none := by
      rw [List.find?_eq_none]
      intro r hr
      have hmf := List.mem_filter.mp hr
      rw [hrows] at hmf
      intro hbeq
      have hrt : r.token = Token.signed p0 REFRESH_SECRET iss aud j := by
        simpa using hbeq
      rcases List.mem_append.mp hmf.1 with hin | hnew
      · have : r = trec :=
          List.inj_on_of_nodup_map htoks hin htmem (by rw [hrt, htokeq])
        rw [this] at hmf
        simpa using hmf.2
      · have : r = RefreshTokenRec.mk db.nextTokenRecId
            (generateToken trec.userId owner.email TokenType.refresh
              REFRESH_TOKEN_EXPIRES_MS now (db.nextJti + 1))
            trec.userId (now + 7 * MS_PER_DAY) := by
          simpa using hnew
        rw [this] at hrt
        simp only [generateToken] at hrt
        injection hrt with hp hs hi ha hj
        omega
    refine ⟨_, _, heq, hacc, href, hnone, ?_⟩
    intro now2
    exact refreshTokens_notFound _ _ now2 hnone

/-- The refresh payload carried by `rtA`. -/
def pRtA : TokenPayload :=
  { userId := 0, email := "e@example.ci".data, type := TokenType.refresh,
    iat := 0, exp := REFRESH_TOKEN_EXPIRES_MS }

/-- Witness for C1 on `dbSessions`: rotating `rtA` at time 1000 issues a
fresh pair, removes its record, and makes every replay fail. -/
theorem refresh_rotation_witness :
    ∃ tokens db2,
      refreshTokens dbSessions rtA 1000 = (Except.ok tokens, db2) ∧
      tokens.accessToken ≠ rtA ∧ tokens.refreshToken ≠ rtA ∧
      db2.refreshTokens.find? (fun r => r.token == rtA) = none ∧
      ∀ now2, (refreshTokens db2 rtA now2).1 =
        Except.error msgInvalidRefresh :=
  refresh_rotation dbSessions rtA 1000 pRtA recA uOwner
    (by decide) (by decide) (by decide) (by decide) (by decide)
    (by decide) (by decide) (by decide)

end PetitesAnnonces
